import Mathlib

/-!
Shallow embedding of the solshare-airdrop program
(programs/solshare-airdrop/src): the campaign record, its escrow token
account, and the four instruction handlers (create_campaign, fund_campaign,
distribute_batch, refund), with the u64/u32/u128 checked arithmetic of the
source made explicit over Nat. Fallible instruction handlers return Except;
the hosting ledger aborts a whole instruction on error, which the embedding
renders by producing the output state only on Except.ok.
-/

namespace Solshare

def U32MAX : Nat := 2 ^ 32 - 1
def U64MAX : Nat := 2 ^ 64 - 1
def U128MAX : Nat := 2 ^ 128 - 1

/-- CampaignStatus from state.rs. -/
inductive CampaignStatus
  | Draft
  | Funded
  | Processing
  | Completed
  | Cancelled
  deriving DecidableEq, Repr

/-- AirdropError from error.rs. -/
inductive AirdropError
  | InvalidStatus
  | InsufficientFunds
  | BatchTooLarge
  | UnauthorizedCrank
  | AlreadyCompleted
  | Overflow
  | InvalidRecipientMint
  deriving DecidableEq, Repr

/-- A failure of one instruction call: a program error from error.rs, an
Anchor account-constraint failure without a custom error code, or a failure
inside the external SPL token program (source balance too small or
destination balance overflow during a transfer). -/
inductive TxError
  | airdrop (e : AirdropError)
  | accountConstraint
  | tokenProgram
  deriving DecidableEq, Repr

/-- An SPL token account: its mint, owner and u64 balance. Pubkeys are
modelled as Nat. -/
structure TokenAccount where
  mint : Nat
  owner : Nat
  amount : Nat
  deriving DecidableEq, Repr

/-- CampaignState from state.rs (the bump seed is irrelevant to the
embedding and omitted; pubkeys and the 16-byte campaign_id are Nat). -/
structure CampaignState where
  creator : Nat
  campaign_id : Nat
  token_mint : Nat
  escrow_ata : Nat
  amount_per_recipient : Nat
  total_amount : Nat
  distributed_amount : Nat
  total_recipients : Nat
  distributed_count : Nat
  status : CampaignStatus
  crank_authority : Nat
  deriving DecidableEq, Repr

/-- create_campaign handler from instructions/create_campaign.rs: builds the
campaign record exactly as the handler body writes it (in particular line 52
sets total_recipients to 0, ignoring the total_recipients argument of the
lib.rs entry point), together with the freshly initialised empty escrow
token account owned by the campaign. -/
def create_campaign (creator campaign_id token_mint escrow_key
    amount_per_recipient crank_authority : Nat) :
    CampaignState × TokenAccount :=
  ({ creator := creator
     campaign_id := campaign_id
     token_mint := token_mint
     escrow_ata := escrow_key
     amount_per_recipient := amount_per_recipient
     total_amount := 0
     distributed_amount := 0
     total_recipients := 0
     distributed_count := 0
     status := CampaignStatus.Draft
     crank_authority := crank_authority },
   { mint := token_mint, owner := campaign_id, amount := 0 })

/-- Modelled from the spec: the create_campaign variant that stores the
caller-supplied total_recipients. The lib.rs entry point declares and
forwards a total_recipients argument, but the handler body carrying it is
missing from the sources (the handler present under src/instructions
hard-codes 0); the spec adopts the variant that stores it. Identical to
create_campaign except for the total_recipients field. -/
def create_campaign_spec (creator campaign_id token_mint escrow_key
    amount_per_recipient total_recipients crank_authority : Nat) :
    CampaignState × TokenAccount :=
  ({ creator := creator
     campaign_id := campaign_id
     token_mint := token_mint
     escrow_ata := escrow_key
     amount_per_recipient := amount_per_recipient
     total_amount := 0
     distributed_amount := 0
     total_recipients := total_recipients
     distributed_count := 0
     status := CampaignStatus.Draft
     crank_authority := crank_authority },
   { mint := token_mint, owner := campaign_id, amount := 0 })

/-- Successful output of fund_campaign: the updated campaign, escrow account
and creator token account. -/
structure FundOut where
  campaign : CampaignState
  escrow : TokenAccount
  creator_ata : TokenAccount
  deriving DecidableEq, Repr

/-- fund_campaign from instructions/fund_campaign.rs. Account constraints in
declaration order (has_one = creator; status == Draft else InvalidStatus;
creator_ata mint and owner), then the SPL transfer creator -> escrow, then
the checked_add on total_amount and the status write. -/
def fund_campaign (campaign : CampaignState) (escrow : TokenAccount)
    (caller : Nat) (creator_ata : TokenAccount) (amount : Nat) :
    Except TxError FundOut :=
  if campaign.creator ≠ caller then .error .accountConstraint
  else if campaign.status ≠ CampaignStatus.Draft then
    .error (.airdrop .InvalidStatus)
  else if creator_ata.mint ≠ campaign.token_mint then .error .accountConstraint
  else if creator_ata.owner ≠ caller then .error .accountConstraint
  else if creator_ata.amount < amount then .error .tokenProgram
  else if U64MAX < escrow.amount + amount then .error .tokenProgram
  else if U64MAX < campaign.total_amount + amount then .error (.airdrop .Overflow)
  else
    .ok { campaign :=
            { campaign with
              total_amount := campaign.total_amount + amount
              status := CampaignStatus.Funded }
          escrow := { escrow with amount := escrow.amount + amount }
          creator_ata :=
            { creator_ata with amount := creator_ata.amount - amount } }

/-- Successful output of distribute_batch: updated campaign, escrow, and the
full remaining-accounts list with the paid recipients updated in place. -/
structure DistOut where
  campaign : CampaignState
  escrow : TokenAccount
  recipients : List TokenAccount
  deriving DecidableEq, Repr

/-- The per-recipient loop of distribute_batch (lines 64-91): for each
recipient in order, require its mint to equal the campaign token_mint (else
InvalidRecipientMint), perform the SPL transfer of amount_per from the
escrow (which fails in the token program if the escrow balance is short or
the recipient balance would overflow u64), and accumulate the running total
with checked_add. Returns the final escrow, the updated recipients, and the
accumulated amount. -/
def payLoop (token_mint amount_per : Nat) :
    TokenAccount → List TokenAccount → Nat →
    Except TxError (TokenAccount × List TokenAccount × Nat)
  | escrow, [], acc => .ok (escrow, [], acc)
  | escrow, r :: rest, acc =>
    if r.mint ≠ token_mint then .error (.airdrop .InvalidRecipientMint)
    else if escrow.amount < amount_per then .error .tokenProgram
    else if U64MAX < r.amount + amount_per then .error .tokenProgram
    else if U64MAX < acc + amount_per then .error (.airdrop .Overflow)
    else
      (payLoop token_mint amount_per
          { escrow with amount := escrow.amount - amount_per } rest
          (acc + amount_per)).map
        (fun out3 =>
          (out3.1, { r with amount := r.amount + amount_per } :: out3.2.1,
           out3.2.2))

/-- distribute_batch handler from instructions/distribute_batch.rs. Account
constraints in order (crank authority else UnauthorizedCrank; status Funded
or Processing else InvalidStatus), then the handler body: u128 checked_mul
for total_needed (Overflow), u64 checked_sub for remaining
(InsufficientFunds), remaining >= total_needed (InsufficientFunds),
recipient_count <= number of supplied accounts (BatchTooLarge), the
per-recipient loop, the checked counter updates, the Processing write and
the completion check. -/
def distribute_batch (campaign : CampaignState) (escrow : TokenAccount)
    (caller : Nat) (remaining_accounts : List TokenAccount)
    (recipient_count : Nat) : Except TxError DistOut :=
  if campaign.crank_authority ≠ caller then
    .error (.airdrop .UnauthorizedCrank)
  else if ¬ (campaign.status = CampaignStatus.Funded ∨
             campaign.status = CampaignStatus.Processing) then
    .error (.airdrop .InvalidStatus)
  else if U128MAX < campaign.amount_per_recipient * recipient_count then
    .error (.airdrop .Overflow)
  else if campaign.total_amount < campaign.distributed_amount then
    .error (.airdrop .InsufficientFunds)
  else if campaign.total_amount - campaign.distributed_amount <
      campaign.amount_per_recipient * recipient_count then
    .error (.airdrop .InsufficientFunds)
  else if remaining_accounts.length < recipient_count then
    .error (.airdrop .BatchTooLarge)
  else
    (payLoop campaign.token_mint campaign.amount_per_recipient escrow
        (remaining_accounts.take recipient_count) 0).bind
      (fun out3 =>
        if U64MAX < campaign.distributed_amount + out3.2.2 then
          .error (.airdrop .Overflow)
        else if U32MAX < campaign.distributed_count + recipient_count then
          .error (.airdrop .Overflow)
        else
          .ok { campaign :=
                  { campaign with
                    distributed_amount := campaign.distributed_amount + out3.2.2
                    distributed_count :=
                      campaign.distributed_count + recipient_count
                    status :=
                      if campaign.total_recipients ≤
                           campaign.distributed_count + recipient_count ∧
                         0 < campaign.total_recipients then
                        CampaignStatus.Completed
                      else CampaignStatus.Processing }
                escrow := out3.1
                recipients :=
                  out3.2.1 ++ remaining_accounts.drop recipient_count })

/-- Successful output of refund: the updated campaign, the escrow account
(none once closed), and the creator token account. -/
structure RefundOut where
  campaign : CampaignState
  escrow : Option TokenAccount
  creator_ata : TokenAccount
  deriving DecidableEq, Repr

/-- refund handler from instructions/refund.rs. Account constraints in order
(has_one = creator; status not Completed else AlreadyCompleted; creator_ata
mint and owner), then: when the escrow balance is positive, transfer it all
to the creator and close the escrow account; always set status to
Cancelled. -/
def refund (campaign : CampaignState) (escrow : TokenAccount) (caller : Nat)
    (creator_ata : TokenAccount) : Except TxError RefundOut :=
  if campaign.creator ≠ caller then .error .accountConstraint
  else if campaign.status = CampaignStatus.Completed then
    .error (.airdrop .AlreadyCompleted)
  else if creator_ata.mint ≠ campaign.token_mint then .error .accountConstraint
  else if creator_ata.owner ≠ caller then .error .accountConstraint
  else if 0 < escrow.amount then
    if U64MAX < creator_ata.amount + escrow.amount then .error .tokenProgram
    else
      .ok { campaign := { campaign with status := CampaignStatus.Cancelled }
            escrow := none
            creator_ata :=
              { creator_ata with
                amount := creator_ata.amount + escrow.amount } }
  else
    .ok { campaign := { campaign with status := CampaignStatus.Cancelled }
          escrow := some escrow
          creator_ata := creator_ata }

/-- The persistent state attached to one campaign: the campaign record and
its escrow token account (none once the escrow has been closed by refund). -/
structure World where
  campaign : CampaignState
  escrow : Option TokenAccount
  deriving DecidableEq, Repr

/-- One successful instruction call on an existing campaign. The caller, the
creator token account, the supplied recipient accounts and the amounts are
chosen freely per call; the escrow account must still exist (its address is
checked against campaign.escrow_ata by each instruction). -/
inductive Step : World → World → Prop
  | fundStep (w : World) (e : TokenAccount) (caller : Nat)
      (ata : TokenAccount) (amount : Nat) (out : FundOut) :
      w.escrow = some e →
      fund_campaign w.campaign e caller ata amount = .ok out →
      Step w ⟨out.campaign, some out.escrow⟩
  | distStep (w : World) (e : TokenAccount) (caller : Nat)
      (recips : List TokenAccount) (n : Nat) (out : DistOut) :
      w.escrow = some e →
      distribute_batch w.campaign e caller recips n = .ok out →
      Step w ⟨out.campaign, some out.escrow⟩
  | refundStep (w : World) (e : TokenAccount) (caller : Nat)
      (ata : TokenAccount) (out : RefundOut) :
      w.escrow = some e →
      refund w.campaign e caller ata = .ok out →
      Step w ⟨out.campaign, out.escrow⟩

/-- Worlds reachable from a fresh campaign by successful calls. A fresh
campaign is one produced by create_campaign (the handler under
src/instructions) or by the spec-adopted variant storing total_recipients
(see create_campaign_spec). -/
inductive Reachable : World → Prop
  | created (creator campaign_id token_mint escrow_key
        amount_per_recipient crank_authority : Nat) :
      Reachable
        ⟨(create_campaign creator campaign_id token_mint escrow_key
            amount_per_recipient crank_authority).1,
         some (create_campaign creator campaign_id token_mint escrow_key
            amount_per_recipient crank_authority).2⟩
  | createdSpec (creator campaign_id token_mint escrow_key
        amount_per_recipient total_recipients crank_authority : Nat) :
      Reachable
        ⟨(create_campaign_spec creator campaign_id token_mint escrow_key
            amount_per_recipient total_recipients crank_authority).1,
         some (create_campaign_spec creator campaign_id token_mint escrow_key
            amount_per_recipient total_recipients crank_authority).2⟩
  | step {w w2 : World} : Reachable w → Step w w2 → Reachable w2

/-- The status transitions permitted by the lifecycle: equal, or forward
along Draft -> Funded -> Processing -> (Completed | Cancelled), with
Cancelled also reachable directly from Draft and Funded. -/
def Forward (a b : CampaignStatus) : Prop :=
  a = b ∨
  (a = CampaignStatus.Draft ∧
    (b = CampaignStatus.Funded ∨ b = CampaignStatus.Processing ∨
     b = CampaignStatus.Completed ∨ b = CampaignStatus.Cancelled)) ∨
  (a = CampaignStatus.Funded ∧
    (b = CampaignStatus.Processing ∨ b = CampaignStatus.Completed ∨
     b = CampaignStatus.Cancelled)) ∨
  (a = CampaignStatus.Processing ∧
    (b = CampaignStatus.Completed ∨ b = CampaignStatus.Cancelled))

instance (a b : CampaignStatus) : Decidable (Forward a b) := by
  unfold Forward; infer_instance

/-- What the ledger leaves behind after a fund_campaign call: the new
accounts on success, the untouched input accounts on error (the host aborts
the whole call atomically). -/
def applyFund (c : CampaignState) (e ata : TokenAccount)
    (r : Except TxError FundOut) :
    CampaignState × TokenAccount × TokenAccount :=
  match r with
  | .ok out => (out.campaign, out.escrow, out.creator_ata)
  | .error _ => (c, e, ata)

/-- What the ledger leaves behind after a distribute_batch call. -/
def applyDist (c : CampaignState) (e : TokenAccount)
    (rs : List TokenAccount) (r : Except TxError DistOut) :
    CampaignState × TokenAccount × List TokenAccount :=
  match r with
  | .ok out => (out.campaign, out.escrow, out.recipients)
  | .error _ => (c, e, rs)

/-- What the ledger leaves behind after a refund call. -/
def applyRefund (c : CampaignState) (e ata : TokenAccount)
    (r : Except TxError RefundOut) :
    CampaignState × Option TokenAccount × TokenAccount :=
  match r with
  | .ok out => (out.campaign, out.escrow, out.creator_ata)
  | .error _ => (c, some e, ata)

/-- The record-level invariant carried by every reachable campaign: exact
per-recipient accounting, distribution bounded by funding, u64/u32 field
bounds, and the facts that a Draft campaign is unfunded and that no
distribution has happened before the first batch call. -/
def CampaignInv (c : CampaignState) : Prop :=
  c.distributed_amount = c.amount_per_recipient * c.distributed_count ∧
  c.distributed_amount ≤ c.total_amount ∧
  c.total_amount ≤ U64MAX ∧
  c.distributed_count ≤ U32MAX ∧
  (c.status = CampaignStatus.Draft → c.total_amount = 0) ∧
  ((c.status = CampaignStatus.Draft ∨ c.status = CampaignStatus.Funded) →
    c.distributed_amount = 0 ∧ c.distributed_count = 0)

/-- Scenario A recipient accounts: three token accounts of the campaign
mint 3 with zero balance. -/
def scenarioA_recipients : List TokenAccount :=
  [⟨3, 21, 0⟩, ⟨3, 22, 0⟩, ⟨3, 23, 0⟩]

/-- Scenario A as executed by the code in src: create_campaign with
amount_per_recipient = 100 (the handler stores total_recipients = 0
regardless of the caller-supplied 3), fund with 300, then one
distribute_batch of the 3 recipients. -/
def scenarioA_src : Except TxError DistOut :=
  match fund_campaign (create_campaign 1 10 3 4 100 7).1
      (create_campaign 1 10 3 4 100 7).2 1 ⟨3, 1, 300⟩ 300 with
  | .error e => .error e
  | .ok o => distribute_batch o.campaign o.escrow 7 scenarioA_recipients 3

/-- Scenario A as executed with the spec-adopted create variant that stores
total_recipients = 3. -/
def scenarioA_spec : Except TxError DistOut :=
  match fund_campaign (create_campaign_spec 1 10 3 4 100 3 7).1
      (create_campaign_spec 1 10 3 4 100 3 7).2 1 ⟨3, 1, 300⟩ 300 with
  | .error e => .error e
  | .ok o => distribute_batch o.campaign o.escrow 7 scenarioA_recipients 3

theorem exceptBind_ok {ε α β : Type} (a : α) (f : α → Except ε β) :
    (Except.ok a : Except ε α).bind f = f a := rfl

theorem exceptBind_error {ε α β : Type} (e : ε) (f : α → Except ε β) :
    (Except.error e : Except ε α).bind f = Except.error e := rfl

theorem exceptMap_ok {ε α β : Type} (f : α → β) (a : α) :
    (Except.ok a : Except ε α).map f = Except.ok (f a) := rfl

theorem exceptMap_error {ε α β : Type} (f : α → β) (e : ε) :
    (Except.error e : Except ε α).map f = Except.error e := rfl

/-- On success, the accumulator returned by the loop has grown by exactly
amount_per for each recipient in the list. -/
theorem payLoop_ok_acc {token_mint amount_per : Nat} :
    ∀ (l : List TokenAccount) (escrow : TokenAccount) (acc : Nat)
      (out3 : TokenAccount × List TokenAccount × Nat),
      payLoop token_mint amount_per escrow l acc = .ok out3 →
      out3.2.2 = acc + amount_per * l.length
  | [], escrow, acc, out3 => by
    intro h
    simp only [payLoop] at h
    injection h with h
    subst h
    simp
  | r :: rest, escrow, acc, out3 => by
    intro h
    simp only [payLoop] at h
    by_cases h1 : r.mint ≠ token_mint
    · rw [if_pos h1] at h; exact Except.noConfusion h
    rw [if_neg h1] at h
    by_cases h2 : escrow.amount < amount_per
    · rw [if_pos h2] at h; exact Except.noConfusion h
    rw [if_neg h2] at h
    by_cases h3 : U64MAX < r.amount + amount_per
    · rw [if_pos h3] at h; exact Except.noConfusion h
    rw [if_neg h3] at h
    by_cases h4 : U64MAX < acc + amount_per
    · rw [if_pos h4] at h; exact Except.noConfusion h
    rw [if_neg h4] at h
    rcases hp : payLoop token_mint amount_per
        { escrow with amount := escrow.amount - amount_per } rest
        (acc + amount_per) with e2 | o3
    · rw [hp, exceptMap_error] at h; exact Except.noConfusion h
    · rw [hp, exceptMap_ok] at h
      injection h with h
      subst h
      have ih := payLoop_ok_acc rest _ _ _ hp
      simp only [List.length_cons, Nat.mul_succ]
      omega

/-- When every recipient in the list carries the campaign mint, the escrow
balance covers the whole list and no u64 addition can wrap, the loop
succeeds and pays amount_per to each recipient in order. -/
theorem payLoop_all_valid {token_mint amount_per : Nat} :
    ∀ (l : List TokenAccount) (escrow : TokenAccount) (acc : Nat),
      (∀ r ∈ l, r.mint = token_mint) →
      (∀ r ∈ l, r.amount + amount_per ≤ U64MAX) →
      amount_per * l.length ≤ escrow.amount →
      acc + amount_per * l.length ≤ U64MAX →
      payLoop token_mint amount_per escrow l acc =
        .ok ({ escrow with amount := escrow.amount - amount_per * l.length },
             l.map (fun r => { r with amount := r.amount + amount_per }),
             acc + amount_per * l.length)
  | [], escrow, acc => by
    intro _ _ _ _
    simp only [payLoop, List.length_nil, Nat.mul_zero, Nat.sub_zero,
      Nat.add_zero, List.map_nil]
  | r :: rest, escrow, acc => by
    intro hmint hov hesc hacc
    have hlen : amount_per * (r :: rest).length =
        amount_per * rest.length + amount_per := by
      simp [List.length_cons, Nat.mul_succ]
    have hm := hmint r (List.mem_cons_self r rest)
    have ho := hov r (List.mem_cons_self r rest)
    simp only [payLoop]
    rw [if_neg (by simp [hm])]
    rw [if_neg (by omega)]
    rw [if_neg (by omega)]
    rw [if_neg (by omega)]
    rw [payLoop_all_valid rest _ (acc + amount_per)
      (fun x hx => hmint x (List.mem_cons_of_mem r hx))
      (fun x hx => hov x (List.mem_cons_of_mem r hx))
      (by simp only [TokenAccount.mk.injEq]; omega)
      (by omega)]
    rw [exceptMap_ok]
    simp only [List.map_cons, Except.ok.injEq, Prod.mk.injEq,
      TokenAccount.mk.injEq, List.cons.injEq, true_and, and_true]
    constructor <;> omega

/-- When some recipient in the list carries a foreign mint (and the escrow
balance and u64 bounds cannot abort the loop earlier), the loop fails with
InvalidRecipientMint. -/
theorem payLoop_invalid {token_mint amount_per : Nat} :
    ∀ (l : List TokenAccount) (escrow : TokenAccount) (acc : Nat),
      (∀ r ∈ l, r.amount + amount_per ≤ U64MAX) →
      amount_per * l.length ≤ escrow.amount →
      acc + amount_per * l.length ≤ U64MAX →
      (∃ r ∈ l, r.mint ≠ token_mint) →
      payLoop token_mint amount_per escrow l acc =
        .error (.airdrop .InvalidRecipientMint)
  | [], escrow, acc => by
    intro _ _ _ hex
    simp at hex
  | r :: rest, escrow, acc => by
    intro hov hesc hacc hex
    have hlen : amount_per * (r :: rest).length =
        amount_per * rest.length + amount_per := by
      simp [List.length_cons, Nat.mul_succ]
    have ho := hov r (List.mem_cons_self r rest)
    simp only [payLoop]
    by_cases hm : r.mint ≠ token_mint
    · rw [if_pos hm]
    · rw [if_neg hm]
      rw [if_neg (by omega)]
      rw [if_neg (by omega)]
      rw [if_neg (by omega)]
      rcases hex with ⟨x, hx, hxm⟩
      rcases List.mem_cons.mp hx with rfl | hx2
      · exact absurd hxm hm
      · rw [payLoop_invalid rest _ (acc + amount_per)
          (fun y hy => hov y (List.mem_cons_of_mem r hy))
          (by simp only [TokenAccount.mk.injEq]; omega)
          (by omega) ⟨x, hx2, hxm⟩]
        rw [exceptMap_error]

/-- Everything a successful fund_campaign call tells us about its input and
output. -/
theorem fund_ok_inv {c : CampaignState} {e ata : TokenAccount}
    {caller amount : Nat} {out : FundOut}
    (h : fund_campaign c e caller ata amount = .ok out) :
    c.creator = caller ∧ c.status = CampaignStatus.Draft ∧
    ata.mint = c.token_mint ∧ ata.owner = caller ∧
    amount ≤ ata.amount ∧ e.amount + amount ≤ U64MAX ∧
    c.total_amount + amount ≤ U64MAX ∧
    out = ⟨{ c with
             total_amount := c.total_amount + amount
             status := CampaignStatus.Funded },
           { e with amount := e.amount + amount },
           { ata with amount := ata.amount - amount }⟩ := by
  unfold fund_campaign at h
  by_cases h1 : c.creator ≠ caller
  · rw [if_pos h1] at h; exact Except.noConfusion h
  rw [if_neg h1] at h
  by_cases h2 : c.status ≠ CampaignStatus.Draft
  · rw [if_pos h2] at h; exact Except.noConfusion h
  rw [if_neg h2] at h
  by_cases h3 : ata.mint ≠ c.token_mint
  · rw [if_pos h3] at h; exact Except.noConfusion h
  rw [if_neg h3] at h
  by_cases h4 : ata.owner ≠ caller
  · rw [if_pos h4] at h; exact Except.noConfusion h
  rw [if_neg h4] at h
  by_cases h5 : ata.amount < amount
  · rw [if_pos h5] at h; exact Except.noConfusion h
  rw [if_neg h5] at h
  by_cases h6 : U64MAX < e.amount + amount
  · rw [if_pos h6] at h; exact Except.noConfusion h
  rw [if_neg h6] at h
  by_cases h7 : U64MAX < c.total_amount + amount
  · rw [if_pos h7] at h; exact Except.noConfusion h
  rw [if_neg h7] at h
  injection h with h
  push_neg at h1 h2 h3 h4
  exact ⟨h1, h2, h3, h4, by omega, by omega, by omega, h.symm⟩

/-- Everything a successful refund call tells us about its input and
output. -/
theorem refund_ok_inv {c : CampaignState} {e ata : TokenAccount}
    {caller : Nat} {out : RefundOut}
    (h : refund c e caller ata = .ok out) :
    c.creator = caller ∧ c.status ≠ CampaignStatus.Completed ∧
    ata.mint = c.token_mint ∧ ata.owner = caller ∧
    out.campaign = { c with status := CampaignStatus.Cancelled } ∧
    ((0 < e.amount ∧
        out.escrow = none ∧
        out.creator_ata = { ata with amount := ata.amount + e.amount }) ∨
     (e.amount = 0 ∧ out.escrow = some e ∧ out.creator_ata = ata)) := by
  unfold refund at h
  by_cases h1 : c.creator ≠ caller
  · rw [if_pos h1] at h; exact Except.noConfusion h
  rw [if_neg h1] at h
  by_cases h2 : c.status = CampaignStatus.Completed
  · rw [if_pos h2] at h; exact Except.noConfusion h
  rw [if_neg h2] at h
  by_cases h3 : ata.mint ≠ c.token_mint
  · rw [if_pos h3] at h; exact Except.noConfusion h
  rw [if_neg h3] at h
  by_cases h4 : ata.owner ≠ caller
  · rw [if_pos h4] at h; exact Except.noConfusion h
  rw [if_neg h4] at h
  push_neg at h1 h3 h4
  by_cases h5 : 0 < e.amount
  · rw [if_pos h5] at h
    by_cases h6 : U64MAX < ata.amount + e.amount
    · rw [if_pos h6] at h; exact Except.noConfusion h
    rw [if_neg h6] at h
    injection h with h
    subst h
    exact ⟨h1, h2, h3, h4, rfl, Or.inl ⟨h5, rfl, rfl⟩⟩
  · rw [if_neg h5] at h
    injection h with h
    subst h
    exact ⟨h1, h2, h3, h4, rfl, Or.inr ⟨by omega, rfl, rfl⟩⟩

/-- Everything a successful distribute_batch call tells us about its input
and output: the guards passed, the loop paid exactly amount_per_recipient
times recipient_count, and the record was updated accordingly. -/
theorem distribute_ok_inv {c : CampaignState} {e : TokenAccount} {k : Nat}
    {rs : List TokenAccount} {n : Nat} {out : DistOut}
    (h : distribute_batch c e k rs n = .ok out) :
    c.crank_authority = k ∧
    (c.status = CampaignStatus.Funded ∨
     c.status = CampaignStatus.Processing) ∧
    c.distributed_amount ≤ c.total_amount ∧
    c.amount_per_recipient * n ≤
      c.total_amount - c.distributed_amount ∧
    n ≤ rs.length ∧
    c.distributed_amount + c.amount_per_recipient * n ≤ U64MAX ∧
    c.distributed_count + n ≤ U32MAX ∧
    ∃ esc2 paid,
      payLoop c.token_mint c.amount_per_recipient e (rs.take n) 0 =
        .ok (esc2, paid, c.amount_per_recipient * n) ∧
      out = ⟨{ c with
               distributed_amount :=
                 c.distributed_amount + c.amount_per_recipient * n
               distributed_count := c.distributed_count + n
               status :=
                 if c.total_recipients ≤ c.distributed_count + n ∧
                    0 < c.total_recipients then
                   CampaignStatus.Completed
                 else CampaignStatus.Processing },
             esc2, paid ++ rs.drop n⟩ := by
  unfold distribute_batch at h
  by_cases h1 : c.crank_authority ≠ k
  · rw [if_pos h1] at h; exact Except.noConfusion h
  rw [if_neg h1] at h
  by_cases h2 : ¬ (c.status = CampaignStatus.Funded ∨
      c.status = CampaignStatus.Processing)
  · rw [if_pos h2] at h; exact Except.noConfusion h
  rw [if_neg h2] at h
  by_cases h3 : U128MAX < c.amount_per_recipient * n
  · rw [if_pos h3] at h; exact Except.noConfusion h
  rw [if_neg h3] at h
  by_cases h4 : c.total_amount < c.distributed_amount
  · rw [if_pos h4] at h; exact Except.noConfusion h
  rw [if_neg h4] at h
  by_cases h5 : c.total_amount - c.distributed_amount <
      c.amount_per_recipient * n
  · rw [if_pos h5] at h; exact Except.noConfusion h
  rw [if_neg h5] at h
  by_cases h6 : rs.length < n
  · rw [if_pos h6] at h; exact Except.noConfusion h
  rw [if_neg h6] at h
  rcases hp : payLoop c.token_mint c.amount_per_recipient e (rs.take n) 0
    with e2 | ⟨esc2, paid, bt⟩
  · rw [hp, exceptBind_error] at h; exact Except.noConfusion h
  rw [hp, exceptBind_ok] at h
  have hbt : bt = c.amount_per_recipient * n := by
    have := payLoop_ok_acc (rs.take n) e 0 (esc2, paid, bt) hp
    have hlt : (rs.take n).length = n := by
      simp [List.length_take]; omega
    simp only [hlt] at this
    simpa using this
  subst hbt
  simp only at h
  by_cases h7 : U64MAX < c.distributed_amount + c.amount_per_recipient * n
  · rw [if_pos h7] at h; exact Except.noConfusion h
  rw [if_neg h7] at h
  by_cases h8 : U32MAX < c.distributed_count + n
  · rw [if_pos h8] at h; exact Except.noConfusion h
  rw [if_neg h8] at h
  injection h with h
  push_neg at h1 h2
  exact ⟨h1, h2, by omega, by omega, by omega, by omega, by omega,
    esc2, paid, rfl, h.symm⟩

/-- Sufficient conditions for fund_campaign to succeed, with its exact
output. -/
theorem fund_ok_intro (c : CampaignState) (e ata : TokenAccount)
    (caller amount : Nat)
    (h1 : c.creator = caller) (h2 : c.status = CampaignStatus.Draft)
    (h3 : ata.mint = c.token_mint) (h4 : ata.owner = caller)
    (h5 : amount ≤ ata.amount) (h6 : e.amount + amount ≤ U64MAX)
    (h7 : c.total_amount + amount ≤ U64MAX) :
    fund_campaign c e caller ata amount =
      .ok ⟨{ c with
             total_amount := c.total_amount + amount
             status := CampaignStatus.Funded },
           { e with amount := e.amount + amount },
           { ata with amount := ata.amount - amount }⟩ := by
  unfold fund_campaign
  rw [if_neg (by simp [h1]), if_neg (by simp [h2]), if_neg (by simp [h3]),
    if_neg (by simp [h4]), if_neg (by omega), if_neg (by omega),
    if_neg (by omega)]

/-- Sufficient conditions for distribute_batch to succeed, with its exact
output. -/
theorem distribute_ok_intro (c : CampaignState) (e : TokenAccount) (k : Nat)
    (rs : List TokenAccount) (n : Nat)
    (h1 : c.crank_authority = k)
    (h2 : c.status = CampaignStatus.Funded ∨
          c.status = CampaignStatus.Processing)
    (h3 : c.distributed_amount ≤ c.total_amount)
    (h4 : c.amount_per_recipient * n ≤
          c.total_amount - c.distributed_amount)
    (h5 : c.total_amount ≤ U64MAX)
    (h6 : n ≤ rs.length)
    (h7 : ∀ r ∈ rs.take n, r.mint = c.token_mint)
    (h8 : ∀ r ∈ rs.take n, r.amount + c.amount_per_recipient ≤ U64MAX)
    (h9 : c.amount_per_recipient * n ≤ e.amount)
    (h10 : c.distributed_count + n ≤ U32MAX) :
    distribute_batch c e k rs n =
      .ok ⟨{ c with
             distributed_amount :=
               c.distributed_amount + c.amount_per_recipient * n
             distributed_count := c.distributed_count + n
             status :=
               if c.total_recipients ≤ c.distributed_count + n ∧
                  0 < c.total_recipients then
                 CampaignStatus.Completed
               else CampaignStatus.Processing },
           { e with amount := e.amount - c.amount_per_recipient * n },
           (rs.take n).map
               (fun r => { r with amount := r.amount + c.amount_per_recipient })
             ++ rs.drop n⟩ := by
  have hlt : (rs.take n).length = n := by
    simp [List.length_take]; omega
  have hU : U64MAX ≤ U128MAX := by decide
  unfold distribute_batch
  rw [if_neg (by simp [h1]), if_neg (not_not_intro h2),
    if_neg (by omega), if_neg (by omega), if_neg (by omega),
    if_neg (by omega)]
  rw [payLoop_all_valid (rs.take n) e 0 h7 h8 (by rw [hlt]; exact h9)
    (by rw [hlt]; omega)]
  rw [exceptBind_ok]
  simp only [hlt, Nat.zero_add]
  rw [if_neg (by omega), if_neg (by omega)]

/-- One successful call preserves the campaign record invariant. -/
theorem step_inv {w w2 : World} (h : Step w w2)
    (hw : CampaignInv w.campaign) : CampaignInv w2.campaign := by
  obtain ⟨i1, i2, i3, i4, i5, i6⟩ := hw
  cases h with
  | fundStep e caller ata amount out he hok =>
    obtain ⟨g1, g2, g3, g4, g5, g6, g7, g8⟩ := fund_ok_inv hok
    subst g8
    obtain ⟨j1, j2⟩ := i6 (Or.inl g2)
    simp only [CampaignInv]
    refine ⟨i1, by omega, g7, i4, ?_, ?_⟩
    · intro hst; cases hst
    · intro hst
      rcases hst with hst | _
      · cases hst
      · exact ⟨j1, j2⟩
  | distStep e caller recips n out he hok =>
    obtain ⟨g1, g2, g3, g4, g5, g6, g7, esc2, paid, hp, g8⟩ :=
      distribute_ok_inv hok
    subst g8
    have hmul : w.campaign.amount_per_recipient *
        (w.campaign.distributed_count + n) =
        w.campaign.amount_per_recipient * w.campaign.distributed_count +
        w.campaign.amount_per_recipient * n := Nat.mul_add _ _ _
    simp only [CampaignInv]
    refine ⟨by omega, by omega, i3, g7, ?_, ?_⟩
    · intro hst
      split at hst <;> cases hst
    · intro hst
      rcases hst with hst | hst <;> (split at hst <;> cases hst)
  | refundStep e caller ata out he hok =>
    obtain ⟨g1, g2, g3, g4, g5, g6⟩ := refund_ok_inv hok
    simp only [CampaignInv, g5]
    refine ⟨i1, i2, i3, i4, ?_, ?_⟩
    · intro hst; cases hst
    · intro hst; rcases hst with hst | hst <;> cases hst

/-- Every reachable world satisfies the campaign record invariant. -/
theorem reachable_inv {w : World} (h : Reachable w) :
    CampaignInv w.campaign := by
  induction h with
  | created creator campaign_id token_mint escrow_key
      amount_per_recipient crank_authority =>
    refine ⟨rfl, Nat.le_refl 0, by simp [create_campaign, U64MAX],
      by simp [create_campaign, U32MAX], fun _ => rfl, fun _ => ⟨rfl, rfl⟩⟩
  | createdSpec creator campaign_id token_mint escrow_key
      amount_per_recipient total_recipients crank_authority =>
    refine ⟨rfl, Nat.le_refl 0, by simp [create_campaign_spec, U64MAX],
      by simp [create_campaign_spec, U32MAX], fun _ => rfl,
      fun _ => ⟨rfl, rfl⟩⟩
  | step hr hs ih => exact step_inv hs ih

/-- Claim C1, evaluated on the code at the failing input (Scenario A). The
claim says create_campaign stores the caller-supplied total_recipients, so
that creating with amount_per_recipient 100 and total_recipients 3, funding
300, and distributing one batch of 3 valid recipients ends with status
Completed and distributed_amount 300. The handler in
src/instructions/create_campaign.rs line 52 stores total_recipients = 0
(ignoring the argument forwarded by the lib.rs entry point), so the run
pays each recipient exactly 100 and reaches distributed_amount 300 but
ends in Processing, never Completed; with the create variant that stores
total_recipients = 3 the same run ends Completed as claimed. -/
theorem c1_scenarioA_completion :
    scenarioA_src =
      .ok ⟨⟨1, 10, 3, 4, 100, 300, 300, 0, 3, CampaignStatus.Processing, 7⟩,
           ⟨3, 10, 0⟩, [⟨3, 21, 100⟩, ⟨3, 22, 100⟩, ⟨3, 23, 100⟩]⟩ ∧
    scenarioA_spec =
      .ok ⟨⟨1, 10, 3, 4, 100, 300, 300, 3, 3, CampaignStatus.Completed, 7⟩,
           ⟨3, 10, 0⟩, [⟨3, 21, 100⟩, ⟨3, 22, 100⟩, ⟨3, 23, 100⟩]⟩ := by
  exact ⟨rfl, rfl⟩

/-- Claim C2: in every world reachable from a fresh campaign by successful
create_campaign, fund_campaign, distribute_batch and refund calls,
distributed_amount equals amount_per_recipient times distributed_count,
and distributed_amount never exceeds total_amount. -/
theorem c2_accounting_invariant {w : World} (h : Reachable w) :
    w.campaign.distributed_amount =
      w.campaign.amount_per_recipient * w.campaign.distributed_count ∧
    w.campaign.distributed_amount ≤ w.campaign.total_amount := by
  obtain ⟨i1, i2, _⟩ := reachable_inv h
  exact ⟨i1, i2⟩

theorem c2_accounting_invariant_witness :
    (⟨(create_campaign 1 10 3 4 100 7).1,
      some (create_campaign 1 10 3 4 100 7).2⟩ :
        World).campaign.distributed_amount =
      (⟨(create_campaign 1 10 3 4 100 7).1,
        some (create_campaign 1 10 3 4 100 7).2⟩ :
          World).campaign.amount_per_recipient *
        (⟨(create_campaign 1 10 3 4 100 7).1,
          some (create_campaign 1 10 3 4 100 7).2⟩ :
            World).campaign.distributed_count ∧
    (⟨(create_campaign 1 10 3 4 100 7).1,
      some (create_campaign 1 10 3 4 100 7).2⟩ :
        World).campaign.distributed_amount ≤
      (⟨(create_campaign 1 10 3 4 100 7).1,
        some (create_campaign 1 10 3 4 100 7).2⟩ :
          World).campaign.total_amount :=
  c2_accounting_invariant (Reachable.created 1 10 3 4 100 7)

/-- Claim C3: every successful operation moves status only forward along
Draft to Funded to Processing to (Completed or Cancelled), with Cancelled
also reachable directly from Draft and Funded; and from a Completed or
Cancelled campaign no successful operation changes the status (from
Completed no operation succeeds at all, and from Cancelled only refund
succeeds, leaving Cancelled). Along any sequence of successful operations
this is exactly the claimed temporal property. -/
theorem c3_status_monotone {w w2 : World} (h : Step w w2) :
    Forward w.campaign.status w2.campaign.status ∧
    ((w.campaign.status = CampaignStatus.Completed ∨
      w.campaign.status = CampaignStatus.Cancelled) →
      w2.campaign.status = w.campaign.status) := by
  cases h with
  | fundStep e caller ata amount out he hok =>
    obtain ⟨g1, g2, g3, g4, g5, g6, g7, g8⟩ := fund_ok_inv hok
    subst g8
    constructor
    · show Forward w.campaign.status CampaignStatus.Funded
      rw [g2]; decide
    · intro hterm
      rcases hterm with ht | ht <;> rw [g2] at ht <;>
        exact CampaignStatus.noConfusion ht
  | distStep e caller recips n out he hok =>
    obtain ⟨g1, g2, g3, g4, g5, g6, g7, esc2, paid, hp, g8⟩ :=
      distribute_ok_inv hok
    subst g8
    constructor
    · show Forward w.campaign.status
        (if w.campaign.total_recipients ≤ w.campaign.distributed_count + n ∧
            0 < w.campaign.total_recipients then
          CampaignStatus.Completed
        else CampaignStatus.Processing)
      rcases g2 with hs | hs <;> rw [hs] <;> split <;> decide
    · intro hterm
      rcases g2 with hs | hs <;> rcases hterm with ht | ht <;>
        rw [hs] at ht <;> exact CampaignStatus.noConfusion ht
  | refundStep e caller ata out he hok =>
    obtain ⟨g1, g2, g3, g4, g5, g6⟩ := refund_ok_inv hok
    constructor
    · show Forward w.campaign.status out.campaign.status
      rw [g5]
      show Forward w.campaign.status CampaignStatus.Cancelled
      rcases hcur : w.campaign.status
      case Completed => exact absurd hcur g2
      all_goals decide
    · intro hterm
      rcases hterm with ht | ht
      · exact absurd ht g2
      · rw [g5]
        show CampaignStatus.Cancelled = w.campaign.status
        rw [ht]

theorem c3_status_monotone_witness :
    Forward CampaignStatus.Draft CampaignStatus.Funded ∧
    ((CampaignStatus.Draft = CampaignStatus.Completed ∨
      CampaignStatus.Draft = CampaignStatus.Cancelled) →
      CampaignStatus.Funded = CampaignStatus.Draft) :=
  c3_status_monotone
    (Step.fundStep
      ⟨(create_campaign 1 10 3 4 100 7).1,
       some (create_campaign 1 10 3 4 100 7).2⟩
      (create_campaign 1 10 3 4 100 7).2 1 ⟨3, 1, 300⟩ 300
      ⟨⟨1, 10, 3, 4, 100, 300, 0, 0, 0, CampaignStatus.Funded, 7⟩,
       ⟨3, 10, 300⟩, ⟨3, 1, 0⟩⟩ rfl rfl)

/-- Claim C4: distribute_batch is all-or-nothing. Whenever the call returns
any error, the campaign record, the escrow and the recipient accounts are
exactly as before the call (the host applies nothing of a failed call); and
a batch containing a recipient whose mint differs from token_mint — while
the authority, status, funds and batch-size guards pass and the transfers
themselves cannot fail — returns InvalidRecipientMint, with no recipient in
the batch paid. -/
theorem c4_batch_atomicity (c : CampaignState) (e : TokenAccount) (k : Nat)
    (rs : List TokenAccount) (n : Nat)
    (h1 : c.crank_authority = k)
    (h2 : c.status = CampaignStatus.Funded ∨
          c.status = CampaignStatus.Processing)
    (h3 : c.distributed_amount ≤ c.total_amount)
    (h4 : c.amount_per_recipient * n ≤
          c.total_amount - c.distributed_amount)
    (h5 : c.total_amount ≤ U64MAX)
    (h6 : n ≤ rs.length)
    (h7 : c.amount_per_recipient * n ≤ e.amount)
    (h8 : ∀ r ∈ rs.take n, r.amount + c.amount_per_recipient ≤ U64MAX)
    (h9 : ∃ r ∈ rs.take n, r.mint ≠ c.token_mint) :
    (∀ err, distribute_batch c e k rs n = .error err →
      applyDist c e rs (distribute_batch c e k rs n) = (c, e, rs)) ∧
    distribute_batch c e k rs n =
      .error (.airdrop .InvalidRecipientMint) := by
  have hlt : (rs.take n).length = n := by
    simp [List.length_take]; omega
  have hU : U64MAX ≤ U128MAX := by decide
  have herr : distribute_batch c e k rs n =
      .error (.airdrop .InvalidRecipientMint) := by
    unfold distribute_batch
    rw [if_neg (by simp [h1]), if_neg (not_not_intro h2),
      if_neg (by omega), if_neg (by omega), if_neg (by omega),
      if_neg (by omega)]
    rw [payLoop_invalid (rs.take n) e 0 h8 (by rw [hlt]; exact h7)
      (by rw [hlt]; omega) h9]
    rw [exceptBind_error]
  exact ⟨fun err _ => by rw [herr]; rfl, herr⟩

theorem c4_batch_atomicity_witness :
    (∀ err,
      distribute_batch ⟨1, 10, 3, 4, 100, 300, 0, 0, 0,
          CampaignStatus.Funded, 7⟩ ⟨3, 10, 300⟩ 7
          [⟨3, 21, 0⟩, ⟨99, 22, 0⟩] 2 = .error err →
      applyDist ⟨1, 10, 3, 4, 100, 300, 0, 0, 0, CampaignStatus.Funded, 7⟩
          ⟨3, 10, 300⟩ [⟨3, 21, 0⟩, ⟨99, 22, 0⟩]
          (distribute_batch ⟨1, 10, 3, 4, 100, 300, 0, 0, 0,
            CampaignStatus.Funded, 7⟩ ⟨3, 10, 300⟩ 7
            [⟨3, 21, 0⟩, ⟨99, 22, 0⟩] 2) =
        (⟨1, 10, 3, 4, 100, 300, 0, 0, 0, CampaignStatus.Funded, 7⟩,
         ⟨3, 10, 300⟩, [⟨3, 21, 0⟩, ⟨99, 22, 0⟩])) ∧
    distribute_batch ⟨1, 10, 3, 4, 100, 300, 0, 0, 0,
        CampaignStatus.Funded, 7⟩ ⟨3, 10, 300⟩ 7
        [⟨3, 21, 0⟩, ⟨99, 22, 0⟩] 2 =
      .error (.airdrop .InvalidRecipientMint) :=
  c4_batch_atomicity _ _ _ _ _ rfl (Or.inl rfl) (by decide) (by decide)
    (by decide) (by decide) (by decide) (by decide) (by decide)

/-- Claim C5 counterexample: amount_per_recipient = u64::MAX with a batch of
2 (2 recipient accounts supplied, escrow bookkeeping at its u64 maximum)
fails with InsufficientFunds, not with Overflow: the u64-by-u32 product
cannot overflow the u128 in which total_needed is computed, so the Overflow
branch of step 1 is unreachable and the claimed error kind is wrong. -/
theorem c5_counterexample :
    distribute_batch ⟨1, 10, 3, 4, U64MAX, U64MAX, 0, 0, 0,
        CampaignStatus.Funded, 7⟩ ⟨3, 10, U64MAX⟩ 7
        [⟨3, 21, 0⟩, ⟨3, 22, 0⟩] 2 =
      .error (.airdrop .InsufficientFunds) ∧
    distribute_batch ⟨1, 10, 3, 4, U64MAX, U64MAX, 0, 0, 0,
        CampaignStatus.Funded, 7⟩ ⟨3, 10, U64MAX⟩ 7
        [⟨3, 21, 0⟩, ⟨3, 22, 0⟩] 2 ≠
      .error (.airdrop .Overflow) := by
  have h1 : distribute_batch ⟨1, 10, 3, 4, U64MAX, U64MAX, 0, 0, 0,
      CampaignStatus.Funded, 7⟩ ⟨3, 10, U64MAX⟩ 7
      [⟨3, 21, 0⟩, ⟨3, 22, 0⟩] 2 =
      .error (.airdrop .InsufficientFunds) := rfl
  refine ⟨h1, fun h => ?_⟩
  rw [h1] at h
  injection h with h
  injection h with h
  exact AirdropError.noConfusion h

/-- Claim C5 amended: distribute_batch computes total_needed in a u128
before any transfer, and a u64 amount_per_recipient times a u32
recipient_count can never overflow that u128; consequently, whenever
total_needed exceeds the recorded remaining balance — in particular for
amount_per_recipient near u64::MAX with recipient_count at least 2 — the
call fails with InsufficientFunds (never a wrapped transfer, and never
Overflow from the multiplication). -/
theorem c5_amended_no_mul_overflow (c : CampaignState) (e : TokenAccount)
    (k : Nat) (rs : List TokenAccount) (n : Nat)
    (h1 : c.crank_authority = k)
    (h2 : c.status = CampaignStatus.Funded ∨
          c.status = CampaignStatus.Processing)
    (h3 : c.amount_per_recipient ≤ U64MAX)
    (h4 : n ≤ U32MAX)
    (h5 : c.total_amount - c.distributed_amount <
          c.amount_per_recipient * n) :
    distribute_batch c e k rs n = .error (.airdrop .InsufficientFunds) := by
  have hmul : c.amount_per_recipient * n ≤ U128MAX := by
    calc c.amount_per_recipient * n ≤ U64MAX * U32MAX :=
          Nat.mul_le_mul h3 h4
      _ ≤ U128MAX := by decide
  unfold distribute_batch
  rw [if_neg (by simp [h1]), if_neg (not_not_intro h2), if_neg (by omega)]
  by_cases h6 : c.total_amount < c.distributed_amount
  · rw [if_pos h6]
  · rw [if_neg h6, if_pos h5]

theorem c5_amended_no_mul_overflow_witness :
    distribute_batch ⟨2, 20, 5, 6, U64MAX, 1000, 0, 0, 0,
        CampaignStatus.Processing, 9⟩ ⟨5, 20, 1000⟩ 9 [⟨5, 31, 0⟩] 3 =
      .error (.airdrop .InsufficientFunds) :=
  c5_amended_no_mul_overflow _ _ _ _ _ rfl (Or.inr rfl) (by decide)
    (by decide) (by decide)

/-- Claim C6: funding succeeds exactly once per campaign. On a reachable
campaign, a fund_campaign call by the creator in Draft (with a valid
creator token account holding enough balance and no u64 overflow) moves
amount into escrow, sets total_amount = amount and status = Funded; on any
reachable campaign whose status is not Draft (Funded or later), the call
fails with InvalidStatus and changes nothing. -/
theorem c6_fund_exactly_once {w : World} (e ata : TokenAccount)
    (caller amount : Nat) (hr : Reachable w) (he : w.escrow = some e)
    (hc : w.campaign.creator = caller)
    (hm : ata.mint = w.campaign.token_mint) (ho : ata.owner = caller) :
    (w.campaign.status = CampaignStatus.Draft →
      amount ≤ ata.amount → e.amount + amount ≤ U64MAX → amount ≤ U64MAX →
      fund_campaign w.campaign e caller ata amount =
        .ok ⟨{ w.campaign with
               total_amount := amount
               status := CampaignStatus.Funded },
             { e with amount := e.amount + amount },
             { ata with amount := ata.amount - amount }⟩) ∧
    (w.campaign.status ≠ CampaignStatus.Draft →
      fund_campaign w.campaign e caller ata amount =
        .error (.airdrop .InvalidStatus) ∧
      applyFund w.campaign e ata
          (fund_campaign w.campaign e caller ata amount) =
        (w.campaign, e, ata)) := by
  obtain ⟨i1, i2, i3, i4, i5, i6⟩ := reachable_inv hr
  constructor
  · intro hd hle hesc hamt
    have ht0 : w.campaign.total_amount = 0 := i5 hd
    have hintro := fund_ok_intro w.campaign e ata caller amount hc hd hm ho
      hle hesc (by omega)
    rw [ht0, Nat.zero_add] at hintro
    exact hintro
  · intro hnd
    have herr : fund_campaign w.campaign e caller ata amount =
        .error (.airdrop .InvalidStatus) := by
      unfold fund_campaign
      rw [if_neg (by simp [hc]), if_pos hnd]
    exact ⟨herr, by rw [herr]; rfl⟩

theorem c6_fund_exactly_once_witness :
    (CampaignStatus.Draft = CampaignStatus.Draft →
      300 ≤ 300 → 0 + 300 ≤ U64MAX → 300 ≤ U64MAX →
      fund_campaign ⟨1, 10, 3, 4, 100, 0, 0, 0, 0, CampaignStatus.Draft, 7⟩
          ⟨3, 10, 0⟩ 1 ⟨3, 1, 300⟩ 300 =
        .ok ⟨⟨1, 10, 3, 4, 100, 300, 0, 0, 0, CampaignStatus.Funded, 7⟩,
             ⟨3, 10, 300⟩, ⟨3, 1, 0⟩⟩) ∧
    (CampaignStatus.Draft ≠ CampaignStatus.Draft →
      fund_campaign ⟨1, 10, 3, 4, 100, 0, 0, 0, 0, CampaignStatus.Draft, 7⟩
          ⟨3, 10, 0⟩ 1 ⟨3, 1, 300⟩ 300 =
        .error (.airdrop .InvalidStatus) ∧
      applyFund ⟨1, 10, 3, 4, 100, 0, 0, 0, 0, CampaignStatus.Draft, 7⟩
          ⟨3, 10, 0⟩ ⟨3, 1, 300⟩
          (fund_campaign ⟨1, 10, 3, 4, 100, 0, 0, 0, 0,
            CampaignStatus.Draft, 7⟩ ⟨3, 10, 0⟩ 1 ⟨3, 1, 300⟩ 300) =
        (⟨1, 10, 3, 4, 100, 0, 0, 0, 0, CampaignStatus.Draft, 7⟩,
         ⟨3, 10, 0⟩, ⟨3, 1, 300⟩)) :=
  c6_fund_exactly_once (create_campaign 1 10 3 4 100 7).2 ⟨3, 1, 300⟩ 1 300
    (Reachable.created 1 10 3 4 100 7) rfl rfl rfl rfl

/-- Claim C7 counterexample: refund by the creator on a non-Completed
campaign whose escrow balance is already zero succeeds and sets status
Cancelled but does NOT release the escrow sub-account (the close is inside
the positive-balance branch of refund.rs), contradicting the claim that the
escrow is closed on every non-Completed refund. -/
theorem c7_counterexample :
    refund ⟨1, 10, 3, 4, 100, 300, 300, 0, 3, CampaignStatus.Processing, 7⟩
        ⟨3, 10, 0⟩ 1 ⟨3, 1, 0⟩ =
      .ok ⟨⟨1, 10, 3, 4, 100, 300, 300, 0, 3, CampaignStatus.Cancelled, 7⟩,
           some ⟨3, 10, 0⟩, ⟨3, 1, 0⟩⟩ ∧
    refund ⟨1, 10, 3, 4, 100, 300, 300, 0, 3, CampaignStatus.Processing, 7⟩
        ⟨3, 10, 0⟩ 1 ⟨3, 1, 0⟩ ≠
      .ok ⟨⟨1, 10, 3, 4, 100, 300, 300, 0, 3, CampaignStatus.Cancelled, 7⟩,
           none, ⟨3, 1, 0⟩⟩ := by
  have h1 : refund ⟨1, 10, 3, 4, 100, 300, 300, 0, 3,
      CampaignStatus.Processing, 7⟩ ⟨3, 10, 0⟩ 1 ⟨3, 1, 0⟩ =
      .ok ⟨⟨1, 10, 3, 4, 100, 300, 300, 0, 3, CampaignStatus.Cancelled, 7⟩,
           some ⟨3, 10, 0⟩, ⟨3, 1, 0⟩⟩ := rfl
  refine ⟨h1, fun h => ?_⟩
  rw [h1] at h
  injection h with h
  have h2 := congrArg RefundOut.escrow h
  simp at h2

/-- Claim C7 amended: refund by the creator on a non-Completed campaign
pays the entire escrow balance to the creator, and when that balance is
positive it also closes the escrow sub-account; when the balance is already
zero, no transfer is performed and the escrow is left open, but status is
still set to Cancelled; when status is Completed the call fails with
AlreadyCompleted and changes nothing. -/
theorem c7_refund_amended (c : CampaignState) (e ata : TokenAccount)
    (caller : Nat) (hc : c.creator = caller)
    (hm : ata.mint = c.token_mint) (ho : ata.owner = caller) :
    (c.status ≠ CampaignStatus.Completed → 0 < e.amount →
      ata.amount + e.amount ≤ U64MAX →
      refund c e caller ata =
        .ok ⟨{ c with status := CampaignStatus.Cancelled }, none,
             { ata with amount := ata.amount + e.amount }⟩) ∧
    (c.status ≠ CampaignStatus.Completed → e.amount = 0 →
      refund c e caller ata =
        .ok ⟨{ c with status := CampaignStatus.Cancelled }, some e, ata⟩) ∧
    (c.status = CampaignStatus.Completed →
      refund c e caller ata = .error (.airdrop .AlreadyCompleted) ∧
      applyRefund c e ata (refund c e caller ata) = (c, some e, ata)) := by
  refine ⟨?_, ?_, ?_⟩
  · intro hnc hpos hov
    unfold refund
    rw [if_neg (by simp [hc]), if_neg hnc, if_neg (by simp [hm]),
      if_neg (by simp [ho]), if_pos hpos, if_neg (by omega)]
  · intro hnc hz
    unfold refund
    rw [if_neg (by simp [hc]), if_neg hnc, if_neg (by simp [hm]),
      if_neg (by simp [ho]), if_neg (by omega)]
  · intro hcomp
    have herr : refund c e caller ata =
        .error (.airdrop .AlreadyCompleted) := by
      unfold refund
      rw [if_neg (by simp [hc]), if_pos hcomp]
    exact ⟨herr, by rw [herr]; rfl⟩

theorem c7_refund_amended_witness :
    (CampaignStatus.Processing ≠ CampaignStatus.Completed → 0 < 100 →
      50 + 100 ≤ U64MAX →
      refund ⟨1, 10, 3, 4, 100, 300, 200, 0, 2, CampaignStatus.Processing, 7⟩
          ⟨3, 10, 100⟩ 1 ⟨3, 1, 50⟩ =
        .ok ⟨⟨1, 10, 3, 4, 100, 300, 200, 0, 2, CampaignStatus.Cancelled, 7⟩,
             none, ⟨3, 1, 150⟩⟩) ∧
    (CampaignStatus.Processing ≠ CampaignStatus.Completed → 100 = 0 →
      refund ⟨1, 10, 3, 4, 100, 300, 200, 0, 2, CampaignStatus.Processing, 7⟩
          ⟨3, 10, 100⟩ 1 ⟨3, 1, 50⟩ =
        .ok ⟨⟨1, 10, 3, 4, 100, 300, 200, 0, 2, CampaignStatus.Cancelled, 7⟩,
             some ⟨3, 10, 100⟩, ⟨3, 1, 50⟩⟩) ∧
    (CampaignStatus.Processing = CampaignStatus.Completed →
      refund ⟨1, 10, 3, 4, 100, 300, 200, 0, 2, CampaignStatus.Processing, 7⟩
          ⟨3, 10, 100⟩ 1 ⟨3, 1, 50⟩ =
        .error (.airdrop .AlreadyCompleted) ∧
      applyRefund ⟨1, 10, 3, 4, 100, 300, 200, 0, 2,
          CampaignStatus.Processing, 7⟩ ⟨3, 10, 100⟩ ⟨3, 1, 50⟩
          (refund ⟨1, 10, 3, 4, 100, 300, 200, 0, 2,
            CampaignStatus.Processing, 7⟩ ⟨3, 10, 100⟩ 1 ⟨3, 1, 50⟩) =
        (⟨1, 10, 3, 4, 100, 300, 200, 0, 2, CampaignStatus.Processing, 7⟩,
         some ⟨3, 10, 100⟩, ⟨3, 1, 50⟩)) :=
  c7_refund_amended ⟨1, 10, 3, 4, 100, 300, 200, 0, 2,
    CampaignStatus.Processing, 7⟩ ⟨3, 10, 100⟩ ⟨3, 1, 50⟩ 1 rfl rfl rfl

/-- Claim C8 counterexample: a crank-authority call on a Funded campaign
requesting 2 recipients while supplying only 1 account AND lacking funds
(needs 200, remaining 50) fails with InsufficientFunds, not with
BatchTooLarge: in distribute_batch.rs the funds checks (lines 38-47)
precede the batch-size check (line 48), so the batch-size bound is not
checked before the arithmetic of steps 1-2 as the claim asserts. -/
theorem c8_counterexample :
    distribute_batch ⟨1, 10, 3, 4, 100, 50, 0, 0, 0,
        CampaignStatus.Funded, 7⟩ ⟨3, 10, 50⟩ 7 [⟨3, 21, 0⟩] 2 =
      .error (.airdrop .InsufficientFunds) ∧
    distribute_batch ⟨1, 10, 3, 4, 100, 50, 0, 0, 0,
        CampaignStatus.Funded, 7⟩ ⟨3, 10, 50⟩ 7 [⟨3, 21, 0⟩] 2 ≠
      .error (.airdrop .BatchTooLarge) := by
  have h1 : distribute_batch ⟨1, 10, 3, 4, 100, 50, 0, 0, 0,
      CampaignStatus.Funded, 7⟩ ⟨3, 10, 50⟩ 7 [⟨3, 21, 0⟩] 2 =
      .error (.airdrop .InsufficientFunds) := rfl
  refine ⟨h1, fun h => ?_⟩
  rw [h1] at h
  injection h with h
  injection h with h
  exact AirdropError.noConfusion h

/-- Claim C8 amended: the batch-size bound is checked after the overflow
and funds arithmetic of steps 1-2, so a crank-authority call on a Funded or
Processing campaign whose recipient_count exceeds the number of supplied
recipient accounts fails with BatchTooLarge exactly when the funds checks
pass (recorded remaining covers the batch); when the remaining balance is
also insufficient the call fails with InsufficientFunds instead. -/
theorem c8_amended_batch_ceiling (c : CampaignState) (e : TokenAccount)
    (k : Nat) (rs : List TokenAccount) (n : Nat)
    (h1 : c.crank_authority = k)
    (h2 : c.status = CampaignStatus.Funded ∨
          c.status = CampaignStatus.Processing)
    (h3 : c.distributed_amount ≤ c.total_amount)
    (h4 : c.amount_per_recipient * n ≤
          c.total_amount - c.distributed_amount)
    (h5 : c.total_amount ≤ U64MAX)
    (h6 : rs.length < n) :
    distribute_batch c e k rs n = .error (.airdrop .BatchTooLarge) := by
  have hU : U64MAX ≤ U128MAX := by decide
  unfold distribute_batch
  rw [if_neg (by simp [h1]), if_neg (not_not_intro h2), if_neg (by omega),
    if_neg (by omega), if_neg (by omega), if_pos h6]

theorem c8_amended_batch_ceiling_witness :
    distribute_batch ⟨1, 10, 3, 4, 100, 500, 0, 0, 0,
        CampaignStatus.Funded, 7⟩ ⟨3, 10, 500⟩ 7 [⟨3, 21, 0⟩] 2 =
      .error (.airdrop .BatchTooLarge) :=
  c8_amended_batch_ceiling _ _ _ _ _ rfl (Or.inl rfl) (by decide)
    (by decide) (by decide) (by decide)

/-- Claim C9: the recipient-count target is not a hard limiter. On any
Funded or Processing campaign whose recorded remaining and escrow balance
cover amount_per_recipient times recipient_count, with enough valid
recipient accounts supplied (and no u64/u32 counter overflow), a batch
whose recipient_count exceeds total_recipients minus distributed_count
still succeeds and leaves distributed_count strictly greater than
total_recipients. -/
theorem c9_target_not_limiting (c : CampaignState) (e : TokenAccount)
    (k : Nat) (rs : List TokenAccount) (n : Nat)
    (h1 : c.crank_authority = k)
    (h2 : c.status = CampaignStatus.Funded ∨
          c.status = CampaignStatus.Processing)
    (h3 : c.distributed_amount ≤ c.total_amount)
    (h4 : c.amount_per_recipient * n ≤
          c.total_amount - c.distributed_amount)
    (h5 : c.total_amount ≤ U64MAX)
    (h6 : n ≤ rs.length)
    (h7 : ∀ r ∈ rs.take n, r.mint = c.token_mint)
    (h8 : ∀ r ∈ rs.take n, r.amount + c.amount_per_recipient ≤ U64MAX)
    (h9 : c.amount_per_recipient * n ≤ e.amount)
    (h10 : c.distributed_count + n ≤ U32MAX)
    (h11 : c.total_recipients < c.distributed_count + n) :
    ∃ out, distribute_batch c e k rs n = .ok out ∧
      c.total_recipients < out.campaign.distributed_count := by
  refine ⟨_, distribute_ok_intro c e k rs n h1 h2 h3 h4 h5 h6 h7 h8 h9 h10,
    ?_⟩
  simpa using h11

theorem c9_target_not_limiting_witness :
    ∃ out, distribute_batch ⟨1, 10, 3, 4, 100, 300, 100, 1, 1,
        CampaignStatus.Processing, 7⟩ ⟨3, 10, 200⟩ 7
        [⟨3, 21, 0⟩, ⟨3, 22, 0⟩] 2 = .ok out ∧
      (1 : Nat) < out.campaign.distributed_count :=
  c9_target_not_limiting _ _ _ _ _ rfl (Or.inr rfl) (by decide) (by decide)
    (by decide) (by decide) (by decide) (by decide) (by decide) (by decide)
    (by decide)

/-- Claim C10 (implicit): a distribute_batch with recipient_count = 0 by
the crank authority on a reachable Funded campaign succeeds: it performs no
transfers, leaves total_amount, distributed_amount, distributed_count and
the escrow balance unchanged, and sets status to Processing. -/
theorem c10_empty_batch {w : World} (e : TokenAccount)
    (rs : List TokenAccount) (hr : Reachable w) (he : w.escrow = some e)
    (hf : w.campaign.status = CampaignStatus.Funded) :
    distribute_batch w.campaign e w.campaign.crank_authority rs 0 =
      .ok ⟨{ w.campaign with status := CampaignStatus.Processing }, e, rs⟩ := by
  obtain ⟨i1, i2, i3, i4, i5, i6⟩ := reachable_inv hr
  obtain ⟨j1, j2⟩ := i6 (Or.inr hf)
  have hintro := distribute_ok_intro w.campaign e w.campaign.crank_authority
    rs 0 rfl (Or.inl hf) i2 (by simp) i3 (by simp) (by simp) (by simp)
    (by simp) (by omega)
  rw [hintro, if_neg (by omega)]
  rfl

theorem c10_empty_batch_witness :
    distribute_batch ⟨1, 10, 3, 4, 100, 300, 0, 0, 0,
        CampaignStatus.Funded, 7⟩ ⟨3, 10, 300⟩ 7 [] 0 =
      .ok ⟨⟨1, 10, 3, 4, 100, 300, 0, 0, 0, CampaignStatus.Processing, 7⟩,
           ⟨3, 10, 300⟩, []⟩ :=
  c10_empty_batch ⟨3, 10, 300⟩ []
    (Reachable.step (Reachable.created 1 10 3 4 100 7)
      (Step.fundStep
        ⟨(create_campaign 1 10 3 4 100 7).1,
         some (create_campaign 1 10 3 4 100 7).2⟩
        (create_campaign 1 10 3 4 100 7).2 1 ⟨3, 1, 300⟩ 300
        ⟨⟨1, 10, 3, 4, 100, 300, 0, 0, 0, CampaignStatus.Funded, 7⟩,
         ⟨3, 10, 300⟩, ⟨3, 1, 0⟩⟩ rfl rfl))
    rfl rfl

end Solshare
